import Mathlib

/-!
Agreement API: the signing handler and its two external-store helpers.

A shallow embedding of `routers.DocSignHandler` (routers/router.go) and of
`crud.SetPermission` and `crud.CheckUserChanges` (crud/default.go).

* The external document store (Google Drive) is a parameter `Drive`: every
  request the code sends is answered by a function of the requests sent so far
  and of the request's arguments, so any call may succeed or fail.
* The record store is a parameter `RecordStore`; `specStore` is an instance
  written from the specification, used where a concrete store is needed.
* A `World` carries the record store's contents, the requests sent to the
  external store and the `crud` calls the handler has made, oldest first.
* A function that can panic has an `Option` result, `none` for the panic.
-/

namespace AgreementApi

/-! ## Data model -/

/-- Modelled from the spec: the `crud.Document` record, whose declaration is not
among the sources. The handler reads `Owner1`, `Owner2`, `Signed1`, `Signed2`;
the identifier, title and url fields and the non-negative counters are the
spec's Document Record. -/
structure Document where
  ID : String
  Title : String
  URL : String
  Owner1 : String
  Owner2 : String
  Signed1 : Nat
  Signed2 : Nat
  deriving DecidableEq, Repr

/-- The `drive.User` fields the code reads. -/
structure User where
  EmailAddress : String
  deriving DecidableEq, Repr

/-- The `drive.File` fields the code reads. `LastModifyingUser` is the pointer
`*User`: `none` is the nil pointer of a file the external store returned without
that field. -/
structure File where
  Id : String
  Title : String
  LastModifyingUser : Option User
  deriving DecidableEq, Repr

/-- The `drive.Permission` fields the code sets (`Type_` is the field `Type`). -/
structure Permission where
  Value : String
  Role : String
  Type_ : String
  deriving DecidableEq, Repr

/-- The `drive.PermissionId` field the code reads. -/
structure PermissionId where
  Id : String
  deriving DecidableEq, Repr

/-- A request sent to the external store. `sendNotificationEmails` is the
optional query parameter of that name: `none` when the call chain never sets
it, `some b` after `.SendNotificationEmails(b)`. -/
inductive DriveRequest where
  | filesGet (fileID : String)
  | permissionsGetIdForEmail (email : String)
  | permissionsUpdate (fileID permissionID : String) (p : Permission)
      (sendNotificationEmails : Option Bool)
  | permissionsInsert (fileID : String) (p : Permission)
      (sendNotificationEmails : Option Bool)
  deriving DecidableEq, Repr

/-- The notification parameter carried by a request, when it carries one. -/
def DriveRequest.notificationFlag : DriveRequest → Option Bool
  | .filesGet _ => none
  | .permissionsGetIdForEmail _ => none
  | .permissionsUpdate _ _ _ flag => flag
  | .permissionsInsert _ _ flag => flag

/-- Whether the request is a `Permissions.Update`. -/
def DriveRequest.isUpdate : DriveRequest → Bool
  | .permissionsUpdate _ _ _ _ => true
  | _ => false

/-- Whether the request is a `Permissions.Insert`. -/
def DriveRequest.isInsert : DriveRequest → Bool
  | .permissionsInsert _ _ _ => true
  | _ => false

/-- The grant a permission request writes, when it writes one. -/
def DriveRequest.grant : DriveRequest → Option Permission
  | .permissionsUpdate _ _ p _ => some p
  | .permissionsInsert _ p _ => some p
  | _ => none

/-- The external store. Each answer may depend on the requests sent before.
`New` is `drive.New(auth.GetClient())`. -/
structure Drive where
  New : List DriveRequest → Except String Unit
  FilesGet : List DriveRequest → String → Except String File
  PermissionsGetIdForEmail : List DriveRequest → String → Except String PermissionId
  PermissionsUpdate : List DriveRequest → String → String → Permission → Option Bool →
    Except String Permission
  PermissionsInsert : List DriveRequest → String → Permission → Option Bool →
    Except String Permission

/-- The record-store functions of package `crud` that the sources call but do
not contain, as parameters over a store of contents `ρ`. -/
structure RecordStore (ρ : Type) where
  GetUserDoc : String → ρ → Except String Document
  RemoveUserSign : String → String → ρ → Except String Document × ρ
  AddUserSign : String → String → ρ → Except String Document × ρ

/-- The `crud` calls made by `DocSignHandler`. -/
inductive Op where
  | checkUserChanges (fileID email : String)
  | removeUserSign (email docID : String)
  | setPermission (fileID email perm : String)
  | addUserSign (email docID : String)
  deriving DecidableEq, Repr

/-- A `crud` call together with whether it returned an error. -/
structure Call where
  op : Op
  failed : Bool
  deriving DecidableEq, Repr

/-- Calls to the external store: `CheckUserChanges` and `SetPermission`. -/
def Op.isExternal : Op → Bool
  | .checkUserChanges _ _ => true
  | .setPermission _ _ _ => true
  | _ => false

/-- Document Record mutations: `RemoveUserSign` and `AddUserSign`. -/
def Op.isMutation : Op → Bool
  | .removeUserSign _ _ => true
  | .addUserSign _ _ => true
  | _ => false

/-- Whether the call is a `SetPermission`. -/
def Op.isSetPermission : Op → Bool
  | .setPermission _ _ _ => true
  | _ => false

/-- Whether the call is an `AddUserSign`. -/
def Op.isAddUserSign : Op → Bool
  | .addUserSign _ _ => true
  | _ => false

/-- The state a request runs against. -/
structure World (ρ : Type) where
  records : ρ
  requests : List DriveRequest
  calls : List Call

/-- Record a request sent to the external store. -/
def World.sent {ρ : Type} (w : World ρ) (r : DriveRequest) : World ρ :=
  { w with requests := w.requests ++ [r] }

/-- Record a `crud` call made by the handler and its outcome. -/
def World.logged {ρ : Type} (w : World ρ) (op : Op) (failed : Bool) : World ρ :=
  { w with calls := w.calls ++ [⟨op, failed⟩] }

/-- Whether a result is an error. -/
def failed {α : Type} : Except String α → Bool
  | .error _ => true
  | .ok _ => false

/-! ## crud/default.go -/

/-- The function `SetPermission(fileID, email, perm string) (err error)`; the
result is the returned error, `none` for `nil`. -/
def SetPermission {ρ : Type} (db : RecordStore ρ) (drv : Drive)
    (fileID email perm : String) (w : World ρ) : Option String × World ρ :=
  match drv.New w.requests with
  | .error err => (some err, w)
  | .ok _ =>
    match db.GetUserDoc fileID w.records with
    | .error err => (some err, w)
    | .ok prf =>
      if prf.Owner1 = email ∨ prf.Owner2 = email then
        match drv.PermissionsGetIdForEmail w.requests email with
        | .error err => (some err, w.sent (.permissionsGetIdForEmail email))
        | .ok temp =>
          let w1 := w.sent (.permissionsGetIdForEmail email)
          match drv.PermissionsUpdate w1.requests fileID temp.Id
              ⟨email, perm, "user"⟩ none with
          | .error err =>
            (some err, w1.sent (.permissionsUpdate fileID temp.Id ⟨email, perm, "user"⟩ none))
          | .ok _ =>
            (none, w1.sent (.permissionsUpdate fileID temp.Id ⟨email, perm, "user"⟩ none))
      else
        match drv.PermissionsInsert w.requests fileID ⟨email, perm, "user"⟩ (some false) with
        | .error err =>
          (some err, w.sent (.permissionsInsert fileID ⟨email, perm, "user"⟩ (some false)))
        | .ok _ =>
          (none, w.sent (.permissionsInsert fileID ⟨email, perm, "user"⟩ (some false)))

/-- The function `CheckUserChanges(fileID, email string) (bool, error)`. The
result is `some (b, err)` when the function returns, the error being `none` for
`nil`, and `none` when it panics: `file.LastModifyingUser.EmailAddress`
dereferences the pointer without a nil check. -/
def CheckUserChanges {ρ : Type} (drv : Drive) (fileID email : String) (w : World ρ) :
    Option (Bool × Option String) × World ρ :=
  match drv.New w.requests with
  | .error err => (some (false, some err), w)
  | .ok _ =>
    match drv.FilesGet w.requests fileID with
    | .error err => (some (false, some err), w.sent (.filesGet fileID))
    | .ok file =>
      match file.LastModifyingUser with
      | none => (none, w.sent (.filesGet fileID))
      | some user =>
        if user.EmailAddress ≠ email then
          (some (true, none), w.sent (.filesGet fileID))
        else
          (some (false, none), w.sent (.filesGet fileID))

/-! ## routers/router.go -/

/-- The request body `userPermission`. -/
structure userPermission where
  Email : String
  DocID : String
  deriving DecidableEq, Repr

/-- The `Data interface{}` field of a response: the string written by
`errorHandler`, or a `*crud.Document`, which is `none` when the pointer is nil
(JSON `null`). -/
inductive Payload where
  | text (s : String)
  | document (d : Option Document)
  deriving DecidableEq, Repr

/-- The JSON body `response`. -/
structure response where
  Success : Bool
  Err : String
  Data : Payload
  deriving DecidableEq, Repr

/-- What the handler writes: the HTTP status code and the body. -/
structure Reply where
  code : Nat
  body : response
  deriving DecidableEq, Repr

/-- The constant `http.StatusInternalServerError`. -/
def StatusInternalServerError : Nat := 500

/-- The constant `http.StatusOK`. -/
def StatusOK : Nat := 200

/-- The constant `http.StatusBadRequest`. -/
def StatusBadRequest : Nat := 400

/-- The function `errorHandler(err, errCode, c)`, for a context on which no
status has been written yet. `c.AbortWithStatusJSON` leaves the status at gin's
default 200 when the code is 0; the handlers pass `StatusInternalServerError`. -/
def errorHandler (err : String) (errCode : Nat) : Reply :=
  ⟨if errCode = 0 then StatusOK else errCode, ⟨false, err, .text ""⟩⟩

/-- The function `DocSignHandler(c *gin.Context)`. `body` is the outcome of
`c.BindJSON(usrPerm)`; every `crud` call is recorded in `calls` once it has
returned. The result is `some reply` for the reply the handler writes and `none`
when the handler panics and writes nothing, which is when `CheckUserChanges`
panics. When `c.BindJSON` fails gin has already written the status 400
(`AbortWithError`), so `errorHandler` adds its body and the status stays 400. -/
def DocSignHandler {ρ : Type} (db : RecordStore ρ) (drv : Drive)
    (body : Except String userPermission) (w : World ρ) : Option Reply × World ρ :=
  match body with
  | .error err =>
    (some ⟨StatusBadRequest, (errorHandler err StatusInternalServerError).body⟩, w)
  | .ok usrPerm =>
    let c := CheckUserChanges drv usrPerm.DocID usrPerm.Email w
    match c.1 with
    | none => (none, c.2)
    | some (_, some err) =>
      (some (errorHandler err StatusInternalServerError),
        c.2.logged (.checkUserChanges usrPerm.DocID usrPerm.Email) true)
    | some (true, none) =>
      let w1 := c.2.logged (.checkUserChanges usrPerm.DocID usrPerm.Email) false
      let r := db.RemoveUserSign usrPerm.Email usrPerm.DocID w1.records
      let w2 := ({ w1 with records := r.2 } : World ρ).logged
        (.removeUserSign usrPerm.Email usrPerm.DocID) (failed r.1)
      match r.1 with
      | .error err => (some (errorHandler err StatusInternalServerError), w2)
      | .ok doc =>
        if doc.Signed1 = 0 then
          let p := SetPermission db drv usrPerm.DocID doc.Owner1 "writer" w2
          let w3 := p.2.logged (.setPermission usrPerm.DocID doc.Owner1 "writer") p.1.isSome
          match p.1 with
          | some err => (some (errorHandler err StatusInternalServerError), w3)
          | none =>
            let q := SetPermission db drv usrPerm.DocID doc.Owner2 "reader" w3
            let w4 := q.2.logged (.setPermission usrPerm.DocID doc.Owner2 "reader") q.1.isSome
            match q.1 with
            | some err => (some (errorHandler err StatusInternalServerError), w4)
            | none =>
              let a := db.AddUserSign doc.Owner2 usrPerm.DocID w4.records
              let w5 := ({ w4 with records := a.2 } : World ρ).logged
                (.addUserSign doc.Owner2 usrPerm.DocID) (failed a.1)
              match a.1 with
              | .error err => (some (errorHandler err StatusInternalServerError), w5)
              | .ok usrDoc => (some ⟨StatusOK, ⟨true, "", .document (some usrDoc)⟩⟩, w5)
        else if doc.Signed2 = 0 then
          let p := SetPermission db drv usrPerm.DocID doc.Owner2 "writer" w2
          let w3 := p.2.logged (.setPermission usrPerm.DocID doc.Owner2 "writer") p.1.isSome
          match p.1 with
          | some err => (some (errorHandler err StatusInternalServerError), w3)
          | none =>
            let q := SetPermission db drv usrPerm.DocID doc.Owner1 "reader" w3
            let w4 := q.2.logged (.setPermission usrPerm.DocID doc.Owner1 "reader") q.1.isSome
            match q.1 with
            | some err => (some (errorHandler err StatusInternalServerError), w4)
            | none =>
              let a := db.AddUserSign doc.Owner1 usrPerm.DocID w4.records
              let w5 := ({ w4 with records := a.2 } : World ρ).logged
                (.addUserSign doc.Owner1 usrPerm.DocID) (failed a.1)
              match a.1 with
              | .error err => (some (errorHandler err StatusInternalServerError), w5)
              | .ok usrDoc => (some ⟨StatusOK, ⟨true, "", .document (some usrDoc)⟩⟩, w5)
        else
          (some ⟨StatusOK, ⟨true, "", .document none⟩⟩, w2)
    | some (false, none) =>
      let w1 := c.2.logged (.checkUserChanges usrPerm.DocID usrPerm.Email) false
      let p := SetPermission db drv usrPerm.DocID usrPerm.Email "reader" w1
      let w2 := p.2.logged (.setPermission usrPerm.DocID usrPerm.Email "reader") p.1.isSome
      match p.1 with
      | some err => (some (errorHandler err StatusInternalServerError), w2)
      | none =>
        let a := db.AddUserSign usrPerm.Email usrPerm.DocID w2.records
        let w3 := ({ w2 with records := a.2 } : World ρ).logged
          (.addUserSign usrPerm.Email usrPerm.DocID) (failed a.1)
        match a.1 with
        | .error err => (some (errorHandler err StatusInternalServerError), w3)
        | .ok file => (some ⟨StatusOK, ⟨true, "", .document (some file)⟩⟩, w3)

/-! ## The record store, from the specification -/

/-- Modelled from the spec: `crud.GetUserDoc`, whose body is not among the
sources. Read-by-id returns the current record or a not-found error. -/
def GetUserDoc (docID : String) (rs : List Document) : Except String Document :=
  match rs.find? (fun d => d.ID = docID) with
  | some d => .ok d
  | none => .error "document not found"

/-- Write `d` over the record that has its identifier. -/
def putDoc (d : Document) (rs : List Document) : List Document :=
  rs.map (fun x => if x.ID = d.ID then d else x)

/-- Modelled from the spec: `crud.RemoveUserSign`, whose body is not among the
sources. It withdraws the named party's signature: the party's counter is
decremented and never goes below zero (on counters 0 and 1 this is the same as
clearing it); the other counter is untouched. An unknown document or party is a
not-found error and changes nothing. -/
def RemoveUserSign (email docID : String) (rs : List Document) :
    Except String Document × List Document :=
  match GetUserDoc docID rs with
  | .error err => (.error err, rs)
  | .ok d =>
    if d.Owner1 = email then
      (.ok { d with Signed1 := d.Signed1 - 1 }, putDoc { d with Signed1 := d.Signed1 - 1 } rs)
    else if d.Owner2 = email then
      (.ok { d with Signed2 := d.Signed2 - 1 }, putDoc { d with Signed2 := d.Signed2 - 1 } rs)
    else (.error "party not found", rs)

/-- Modelled from the spec: `crud.AddUserSign`, whose body is not among the
sources. The sign-mutation increments exactly one of the two counters, the named
party's, and returns the persisted record. An unknown document or party is a
not-found error and changes nothing. -/
def AddUserSign (email docID : String) (rs : List Document) :
    Except String Document × List Document :=
  match GetUserDoc docID rs with
  | .error err => (.error err, rs)
  | .ok d =>
    if d.Owner1 = email then
      (.ok { d with Signed1 := d.Signed1 + 1 }, putDoc { d with Signed1 := d.Signed1 + 1 } rs)
    else if d.Owner2 = email then
      (.ok { d with Signed2 := d.Signed2 + 1 }, putDoc { d with Signed2 := d.Signed2 + 1 } rs)
    else (.error "party not found", rs)

/-- The record store of the specification. -/
def specStore : RecordStore (List Document) :=
  ⟨GetUserDoc, RemoveUserSign, AddUserSign⟩

/-! ## Observations on a run -/

/-- The `crud` calls made between two worlds. -/
def callsOf {ρ : Type} (w w' : World ρ) : List Call := w'.calls.drop w.calls.length

/-- The requests sent to the external store between two worlds. -/
def requestsOf {ρ : Type} (w w' : World ρ) : List DriveRequest :=
  w'.requests.drop w.requests.length

/-- The number of `SetPermission` calls in a list of calls. -/
def permissionCalls (cs : List Call) : Nat := (cs.filter (fun c => c.op.isSetPermission)).length

/-- The number of Document Record updates in a list of calls. -/
def recordUpdates (cs : List Call) : Nat := (cs.filter (fun c => c.op.isMutation)).length

/-- The exits of `DocSignHandler` on a bound request: one constructor for each
`return` of the function and one for the panic of `CheckUserChanges`, with the
answers that lead to it and the reply and world it leaves. -/
inductive SignRun {ρ : Type} (db : RecordStore ρ) (drv : Drive) (req : userPermission)
    (w : World ρ) : Option Reply × World ρ → Prop where
  | checkPanicked (wc : World ρ)
      (hc : CheckUserChanges drv req.DocID req.Email w = (none, wc)) :
      SignRun db drv req w (none, ⟨w.records, wc.requests, w.calls⟩)
  | checkFailed (b : Bool) (err : String) (wc : World ρ)
      (hc : CheckUserChanges drv req.DocID req.Email w = (some (b, some err), wc)) :
      SignRun db drv req w (some (errorHandler err StatusInternalServerError),
        ⟨w.records, wc.requests, w.calls ++ [⟨.checkUserChanges req.DocID req.Email, true⟩]⟩)
  | lockFailed (wc wp : World ρ) (err : String)
      (hc : CheckUserChanges drv req.DocID req.Email w = (some (false, none), wc))
      (hp : SetPermission db drv req.DocID req.Email "reader"
        ⟨w.records, wc.requests, w.calls ++ [⟨.checkUserChanges req.DocID req.Email, false⟩]⟩
          = (some err, wp)) :
      SignRun db drv req w (some (errorHandler err StatusInternalServerError),
        ⟨w.records, wp.requests, w.calls ++ [⟨.checkUserChanges req.DocID req.Email, false⟩,
          ⟨.setPermission req.DocID req.Email "reader", true⟩]⟩)
  | signFailed (wc wp : World ρ) (err : String) (r : ρ)
      (hc : CheckUserChanges drv req.DocID req.Email w = (some (false, none), wc))
      (hp : SetPermission db drv req.DocID req.Email "reader"
        ⟨w.records, wc.requests, w.calls ++ [⟨.checkUserChanges req.DocID req.Email, false⟩]⟩
          = (none, wp))
      (ha : db.AddUserSign req.Email req.DocID w.records = (.error err, r)) :
      SignRun db drv req w (some (errorHandler err StatusInternalServerError),
        ⟨r, wp.requests, w.calls ++ [⟨.checkUserChanges req.DocID req.Email, false⟩,
          ⟨.setPermission req.DocID req.Email "reader", false⟩,
          ⟨.addUserSign req.Email req.DocID, true⟩]⟩)
  | signed (wc wp : World ρ) (file : Document) (r : ρ)
      (hc : CheckUserChanges drv req.DocID req.Email w = (some (false, none), wc))
      (hp : SetPermission db drv req.DocID req.Email "reader"
        ⟨w.records, wc.requests, w.calls ++ [⟨.checkUserChanges req.DocID req.Email, false⟩]⟩
          = (none, wp))
      (ha : db.AddUserSign req.Email req.DocID w.records = (.ok file, r)) :
      SignRun db drv req w (some ⟨StatusOK, ⟨true, "", .document (some file)⟩⟩,
        ⟨r, wp.requests, w.calls ++ [⟨.checkUserChanges req.DocID req.Email, false⟩,
          ⟨.setPermission req.DocID req.Email "reader", false⟩,
          ⟨.addUserSign req.Email req.DocID, false⟩]⟩)
  | withdrawFailed (wc : World ρ) (err : String) (r : ρ)
      (hc : CheckUserChanges drv req.DocID req.Email w = (some (true, none), wc))
      (hr : db.RemoveUserSign req.Email req.DocID w.records = (.error err, r)) :
      SignRun db drv req w (some (errorHandler err StatusInternalServerError),
        ⟨r, wc.requests, w.calls ++ [⟨.checkUserChanges req.DocID req.Email, false⟩,
          ⟨.removeUserSign req.Email req.DocID, true⟩]⟩)
  | regrantFirstFailed (wc wp : World ρ) (doc : Document) (r : ρ) (err : String)
      (first second : String)
      (hc : CheckUserChanges drv req.DocID req.Email w = (some (true, none), wc))
      (hr : db.RemoveUserSign req.Email req.DocID w.records = (.ok doc, r))
      (hb : (doc.Signed1 = 0 ∧ first = doc.Owner1 ∧ second = doc.Owner2) ∨
        (doc.Signed1 ≠ 0 ∧ doc.Signed2 = 0 ∧ first = doc.Owner2 ∧ second = doc.Owner1))
      (hp : SetPermission db drv req.DocID first "writer"
        ⟨r, wc.requests, w.calls ++ [⟨.checkUserChanges req.DocID req.Email, false⟩,
          ⟨.removeUserSign req.Email req.DocID, false⟩]⟩ = (some err, wp)) :
      SignRun db drv req w (some (errorHandler err StatusInternalServerError),
        ⟨r, wp.requests, w.calls ++ [⟨.checkUserChanges req.DocID req.Email, false⟩,
          ⟨.removeUserSign req.Email req.DocID, false⟩,
          ⟨.setPermission req.DocID first "writer", true⟩]⟩)
  | regrantSecondFailed (wc wp wq : World ρ) (doc : Document) (r : ρ) (err : String)
      (first second : String)
      (hc : CheckUserChanges drv req.DocID req.Email w = (some (true, none), wc))
      (hr : db.RemoveUserSign req.Email req.DocID w.records = (.ok doc, r))
      (hb : (doc.Signed1 = 0 ∧ first = doc.Owner1 ∧ second = doc.Owner2) ∨
        (doc.Signed1 ≠ 0 ∧ doc.Signed2 = 0 ∧ first = doc.Owner2 ∧ second = doc.Owner1))
      (hp : SetPermission db drv req.DocID first "writer"
        ⟨r, wc.requests, w.calls ++ [⟨.checkUserChanges req.DocID req.Email, false⟩,
          ⟨.removeUserSign req.Email req.DocID, false⟩]⟩ = (none, wp))
      (hq : SetPermission db drv req.DocID second "reader"
        ⟨r, wp.requests, w.calls ++ [⟨.checkUserChanges req.DocID req.Email, false⟩,
          ⟨.removeUserSign req.Email req.DocID, false⟩,
          ⟨.setPermission req.DocID first "writer", false⟩]⟩ = (some err, wq)) :
      SignRun db drv req w (some (errorHandler err StatusInternalServerError),
        ⟨r, wq.requests, w.calls ++ [⟨.checkUserChanges req.DocID req.Email, false⟩,
          ⟨.removeUserSign req.Email req.DocID, false⟩,
          ⟨.setPermission req.DocID first "writer", false⟩,
          ⟨.setPermission req.DocID second "reader", true⟩]⟩)
  | regrantSignFailed (wc wp wq : World ρ) (doc : Document) (r r' : ρ) (err : String)
      (first second : String)
      (hc : CheckUserChanges drv req.DocID req.Email w = (some (true, none), wc))
      (hr : db.RemoveUserSign req.Email req.DocID w.records = (.ok doc, r))
      (hb : (doc.Signed1 = 0 ∧ first = doc.Owner1 ∧ second = doc.Owner2) ∨
        (doc.Signed1 ≠ 0 ∧ doc.Signed2 = 0 ∧ first = doc.Owner2 ∧ second = doc.Owner1))
      (hp : SetPermission db drv req.DocID first "writer"
        ⟨r, wc.requests, w.calls ++ [⟨.checkUserChanges req.DocID req.Email, false⟩,
          ⟨.removeUserSign req.Email req.DocID, false⟩]⟩ = (none, wp))
      (hq : SetPermission db drv req.DocID second "reader"
        ⟨r, wp.requests, w.calls ++ [⟨.checkUserChanges req.DocID req.Email, false⟩,
          ⟨.removeUserSign req.Email req.DocID, false⟩,
          ⟨.setPermission req.DocID first "writer", false⟩]⟩ = (none, wq))
      (ha : db.AddUserSign second req.DocID r = (.error err, r')) :
      SignRun db drv req w (some (errorHandler err StatusInternalServerError),
        ⟨r', wq.requests, w.calls ++ [⟨.checkUserChanges req.DocID req.Email, false⟩,
          ⟨.removeUserSign req.Email req.DocID, false⟩,
          ⟨.setPermission req.DocID first "writer", false⟩,
          ⟨.setPermission req.DocID second "reader", false⟩,
          ⟨.addUserSign second req.DocID, true⟩]⟩)
  | regranted (wc wp wq : World ρ) (doc usrDoc : Document) (r r' : ρ)
      (first second : String)
      (hc : CheckUserChanges drv req.DocID req.Email w = (some (true, none), wc))
      (hr : db.RemoveUserSign req.Email req.DocID w.records = (.ok doc, r))
      (hb : (doc.Signed1 = 0 ∧ first = doc.Owner1 ∧ second = doc.Owner2) ∨
        (doc.Signed1 ≠ 0 ∧ doc.Signed2 = 0 ∧ first = doc.Owner2 ∧ second = doc.Owner1))
      (hp : SetPermission db drv req.DocID first "writer"
        ⟨r, wc.requests, w.calls ++ [⟨.checkUserChanges req.DocID req.Email, false⟩,
          ⟨.removeUserSign req.Email req.DocID, false⟩]⟩ = (none, wp))
      (hq : SetPermission db drv req.DocID second "reader"
        ⟨r, wp.requests, w.calls ++ [⟨.checkUserChanges req.DocID req.Email, false⟩,
          ⟨.removeUserSign req.Email req.DocID, false⟩,
          ⟨.setPermission req.DocID first "writer", false⟩]⟩ = (none, wq))
      (ha : db.AddUserSign second req.DocID r = (.ok usrDoc, r')) :
      SignRun db drv req w (some ⟨StatusOK, ⟨true, "", .document (some usrDoc)⟩⟩,
        ⟨r', wq.requests, w.calls ++ [⟨.checkUserChanges req.DocID req.Email, false⟩,
          ⟨.removeUserSign req.Email req.DocID, false⟩,
          ⟨.setPermission req.DocID first "writer", false⟩,
          ⟨.setPermission req.DocID second "reader", false⟩,
          ⟨.addUserSign second req.DocID, false⟩]⟩)
  | bothSigned (wc : World ρ) (doc : Document) (r : ρ)
      (hc : CheckUserChanges drv req.DocID req.Email w = (some (true, none), wc))
      (hr : db.RemoveUserSign req.Email req.DocID w.records = (.ok doc, r))
      (h1 : doc.Signed1 ≠ 0) (h2 : doc.Signed2 ≠ 0) :
      SignRun db drv req w (some ⟨StatusOK, ⟨true, "", .document none⟩⟩,
        ⟨r, wc.requests, w.calls ++ [⟨.checkUserChanges req.DocID req.Email, false⟩,
          ⟨.removeUserSign req.Email req.DocID, false⟩]⟩)

/-! ## Scenario inputs -/

/-- The document `d1` of the specification's scenarios, with the given counters. -/
def docAB (signedA signedB : Nat) : Document :=
  ⟨"d1", "Contract", "https://docs.google.com/document/d/d1/", "a@x.com", "b@x.com",
    signedA, signedB⟩

/-- A record store that holds only `d1`, before any request. -/
def worldAB (signedA signedB : Nat) : World (List Document) :=
  ⟨[docAB signedA signedB], [], []⟩

/-- An external store whose files were last modified by `lastModifier` and which
accepts permission writes until `quota` requests have been sent. -/
def driveFake (lastModifier : String) (quota : Nat) : Drive where
  New := fun _ => .ok ()
  FilesGet := fun _ fileID => .ok ⟨fileID, "Contract", some ⟨lastModifier⟩⟩
  PermissionsGetIdForEmail := fun _ email => .ok ⟨email⟩
  PermissionsUpdate := fun sent _ _ p _ =>
    if sent.length < quota then .ok p else .error "quota exceeded"
  PermissionsInsert := fun sent _ p _ =>
    if sent.length < quota then .ok p else .error "quota exceeded"

/-- An external store like `driveFake` whose files carry no last-modifying
user. -/
def driveNoModifier (quota : Nat) : Drive :=
  { driveFake "" quota with FilesGet := fun _ fileID => .ok ⟨fileID, "Contract", none⟩ }

/-- An external store like `driveFake` that resolves no grant id. -/
def driveNoGrantId (lastModifier : String) (quota : Nat) : Drive :=
  { driveFake lastModifier quota with
    PermissionsGetIdForEmail := fun _ _ => .error "permission id not found" }

/-- The `success` flag of the reply the handler wrote; `none` when it wrote no
reply. -/
def successOf (reply : Option Reply) : Option Bool :=
  reply.map (fun r => r.body.Success)

/-- The two counters of the record a reply carries, when it carries one. -/
def countersOf (reply : Option Reply) : Option (Nat × Nat) :=
  match reply with
  | some ⟨_, ⟨_, _, .document (some d)⟩⟩ => some (d.Signed1, d.Signed2)
  | _ => none

/-- The world a diverged request is in once the withdrawal has returned: the
store `RemoveUserSign` left, the requests the divergence check sent, and the two
calls recorded. -/
def afterWithdrawal {ρ : Type} (db : RecordStore ρ) (drv : Drive) (req : userPermission)
    (w : World ρ) : World ρ :=
  ⟨(db.RemoveUserSign req.Email req.DocID w.records).2,
    (CheckUserChanges drv req.DocID req.Email w).2.requests,
    w.calls ++ [⟨.checkUserChanges req.DocID req.Email, false⟩,
      ⟨.removeUserSign req.Email req.DocID,
        failed (db.RemoveUserSign req.Email req.DocID w.records).1⟩]⟩

/-- The world after `SetPermission` has run on `w` and the call is recorded. -/
def afterGrant {ρ : Type} (db : RecordStore ρ) (drv : Drive) (fileID email perm : String)
    (w : World ρ) : World ρ :=
  (SetPermission db drv fileID email perm w).2.logged (.setPermission fileID email perm)
    (SetPermission db drv fileID email perm w).1.isSome

/-! ## Lemmas on the helpers -/

theorem requestsOf_eq {ρ : Type} (w w' : World ρ) (xs : List DriveRequest)
    (h : w'.requests = w.requests ++ xs) : requestsOf w w' = xs := by
  simp [requestsOf, h]

@[simp]
theorem sent_records {ρ : Type} (w : World ρ) (r : DriveRequest) :
    (w.sent r).records = w.records := rfl

@[simp]
theorem sent_calls {ρ : Type} (w : World ρ) (r : DriveRequest) :
    (w.sent r).calls = w.calls := rfl

@[simp]
theorem sent_requests {ρ : Type} (w : World ρ) (r : DriveRequest) :
    (w.sent r).requests = w.requests ++ [r] := rfl

@[simp]
theorem logged_records {ρ : Type} (w : World ρ) (op : Op) (f : Bool) :
    (w.logged op f).records = w.records := rfl

@[simp]
theorem logged_calls {ρ : Type} (w : World ρ) (op : Op) (f : Bool) :
    (w.logged op f).calls = w.calls ++ [⟨op, f⟩] := rfl

@[simp]
theorem logged_requests {ρ : Type} (w : World ρ) (op : Op) (f : Bool) :
    (w.logged op f).requests = w.requests := rfl

theorem SetPermission_records {ρ : Type} (db : RecordStore ρ) (drv : Drive)
    (fileID email perm : String) (w : World ρ) :
    (SetPermission db drv fileID email perm w).2.records = w.records := by
  unfold SetPermission
  dsimp only
  repeat' split
  all_goals rfl

theorem SetPermission_calls {ρ : Type} (db : RecordStore ρ) (drv : Drive)
    (fileID email perm : String) (w : World ρ) :
    (SetPermission db drv fileID email perm w).2.calls = w.calls := by
  unfold SetPermission
  dsimp only
  repeat' split
  all_goals rfl

theorem CheckUserChanges_records {ρ : Type} (drv : Drive) (fileID email : String)
    (w : World ρ) : (CheckUserChanges drv fileID email w).2.records = w.records := by
  unfold CheckUserChanges
  repeat' split
  all_goals rfl

theorem CheckUserChanges_calls {ρ : Type} (drv : Drive) (fileID email : String)
    (w : World ρ) : (CheckUserChanges drv fileID email w).2.calls = w.calls := by
  unfold CheckUserChanges
  repeat' split
  all_goals rfl

/-- The requests `SetPermission` sends, as a function of the store's answers. -/
theorem SetPermission_requests {ρ : Type} (db : RecordStore ρ) (drv : Drive)
    (fileID email perm : String) (w : World ρ) (prf : Document)
    (hnew : drv.New w.requests = .ok ()) (hdoc : db.GetUserDoc fileID w.records = .ok prf) :
    requestsOf w (SetPermission db drv fileID email perm w).2 =
      if prf.Owner1 = email ∨ prf.Owner2 = email then
        match drv.PermissionsGetIdForEmail w.requests email with
        | .error _ => [.permissionsGetIdForEmail email]
        | .ok temp => [.permissionsGetIdForEmail email,
            .permissionsUpdate fileID temp.Id ⟨email, perm, "user"⟩ none]
      else [.permissionsInsert fileID ⟨email, perm, "user"⟩ (some false)] := by
  apply requestsOf_eq
  unfold SetPermission
  rw [hnew]
  simp only [hdoc]
  repeat' split
  all_goals simp_all

/-- The requests `SetPermission` sends come after those already sent. -/
theorem SetPermission_requests_extend {ρ : Type} (db : RecordStore ρ) (drv : Drive)
    (fileID email perm : String) (w : World ρ) :
    ∃ new, (SetPermission db drv fileID email perm w).2.requests = w.requests ++ new := by
  unfold SetPermission
  dsimp only
  repeat' split
  all_goals first
    | exact ⟨[], (List.append_nil _).symm⟩
    | exact ⟨_, rfl⟩
    | exact ⟨_, List.append_assoc _ _ _⟩

theorem SetPermission_world {ρ : Type} (db : RecordStore ρ) (drv : Drive)
    (fileID email perm : String) (w wp : World ρ) (pe : Option String)
    (h : SetPermission db drv fileID email perm w = (pe, wp)) :
    wp.records = w.records ∧ wp.calls = w.calls := by
  have h1 := SetPermission_records db drv fileID email perm w
  have h2 := SetPermission_calls db drv fileID email perm w
  rw [h] at h1 h2
  exact ⟨h1, h2⟩

theorem CheckUserChanges_world {ρ : Type} (drv : Drive) (fileID email : String)
    (w wc : World ρ) (res : Option (Bool × Option String))
    (h : CheckUserChanges drv fileID email w = (res, wc)) :
    wc.records = w.records ∧ wc.calls = w.calls := by
  have h1 := CheckUserChanges_records drv fileID email w
  have h2 := CheckUserChanges_calls drv fileID email w
  rw [h] at h1 h2
  exact ⟨h1, h2⟩

/-- Every run of the handler on a bound request leaves by one of the exits of
`SignRun`. -/
theorem DocSignHandler_run {ρ : Type} (db : RecordStore ρ) (drv : Drive)
    (req : userPermission) (w : World ρ) :
    SignRun db drv req w (DocSignHandler db drv (.ok req) w) := by
  rcases hc : CheckUserChanges drv req.DocID req.Email w with ⟨_ | ⟨b, e⟩, wc⟩
  all_goals obtain ⟨hcr, hcc⟩ := CheckUserChanges_world drv _ _ w wc _ hc
  · have h : DocSignHandler db drv (.ok req) w = (none, ⟨w.records, wc.requests, w.calls⟩) := by
      simp [DocSignHandler, hc, ← hcr, ← hcc]
    rw [h]
    exact .checkPanicked wc hc
  cases e with
  | some err =>
    have h : DocSignHandler db drv (.ok req) w = (some (errorHandler err StatusInternalServerError),
        ⟨w.records, wc.requests,
          w.calls ++ [⟨.checkUserChanges req.DocID req.Email, true⟩]⟩) := by
      simp [DocSignHandler, hc, World.logged, hcr, hcc]
    rw [h]
    exact .checkFailed b err wc hc
  | none =>
    cases b with
    | false =>
      rcases hp : SetPermission db drv req.DocID req.Email "reader"
        ⟨w.records, wc.requests, w.calls ++ [⟨.checkUserChanges req.DocID req.Email, false⟩]⟩
        with ⟨pe, wp⟩
      obtain ⟨hpr, hpc⟩ := SetPermission_world db drv _ _ _ _ wp _ hp
      simp only at hpr hpc
      cases pe with
      | some err =>
        have h : DocSignHandler db drv (.ok req) w =
            (some (errorHandler err StatusInternalServerError),
              ⟨w.records, wp.requests,
                w.calls ++ [⟨.checkUserChanges req.DocID req.Email, false⟩,
                  ⟨.setPermission req.DocID req.Email "reader", true⟩]⟩) := by
          simp [DocSignHandler, hc, World.logged, hcr, hcc, hp, hpr, hpc]
        rw [h]
        exact .lockFailed wc wp err hc hp
      | none =>
        rcases ha : db.AddUserSign req.Email req.DocID w.records with ⟨ar, r⟩
        cases ar with
        | error err =>
          have h : DocSignHandler db drv (.ok req) w =
              (some (errorHandler err StatusInternalServerError),
                ⟨r, wp.requests,
                  w.calls ++ [⟨.checkUserChanges req.DocID req.Email, false⟩,
                    ⟨.setPermission req.DocID req.Email "reader", false⟩,
                    ⟨.addUserSign req.Email req.DocID, true⟩]⟩) := by
            simp [DocSignHandler, hc, World.logged, hcr, hcc, hp, hpr, hpc, ha, failed]
          rw [h]
          exact .signFailed wc wp err r hc hp ha
        | ok file =>
          have h : DocSignHandler db drv (.ok req) w =
              (some ⟨StatusOK, ⟨true, "", .document (some file)⟩⟩,
                ⟨r, wp.requests,
                  w.calls ++ [⟨.checkUserChanges req.DocID req.Email, false⟩,
                    ⟨.setPermission req.DocID req.Email "reader", false⟩,
                    ⟨.addUserSign req.Email req.DocID, false⟩]⟩) := by
            simp [DocSignHandler, hc, World.logged, hcr, hcc, hp, hpr, hpc, ha, failed]
          rw [h]
          exact .signed wc wp file r hc hp ha
    | true =>
      rcases hr : db.RemoveUserSign req.Email req.DocID w.records with ⟨rr, r⟩
      cases rr with
      | error err =>
        have h : DocSignHandler db drv (.ok req) w =
            (some (errorHandler err StatusInternalServerError),
              ⟨r, wc.requests,
                w.calls ++ [⟨.checkUserChanges req.DocID req.Email, false⟩,
                  ⟨.removeUserSign req.Email req.DocID, true⟩]⟩) := by
          simp [DocSignHandler, hc, World.logged, hcr, hcc, hr, failed]
        rw [h]
        exact .withdrawFailed wc err r hc hr
      | ok doc =>
        by_cases h1 : doc.Signed1 = 0
        · rcases hp : SetPermission db drv req.DocID doc.Owner1 "writer"
            ⟨r, wc.requests, w.calls ++ [⟨.checkUserChanges req.DocID req.Email, false⟩,
              ⟨.removeUserSign req.Email req.DocID, false⟩]⟩ with ⟨pe, wp⟩
          obtain ⟨hpr, hpc⟩ := SetPermission_world db drv _ _ _ _ wp _ hp
          simp only at hpr hpc
          cases pe with
          | some err =>
            have h : DocSignHandler db drv (.ok req) w =
                (some (errorHandler err StatusInternalServerError),
                  ⟨r, wp.requests,
                    w.calls ++ [⟨.checkUserChanges req.DocID req.Email, false⟩,
                      ⟨.removeUserSign req.Email req.DocID, false⟩,
                      ⟨.setPermission req.DocID doc.Owner1 "writer", true⟩]⟩) := by
              simp [DocSignHandler, hc, World.logged, hcr, hcc, hr, failed, h1, hp, hpr, hpc]
            rw [h]
            exact .regrantFirstFailed wc wp doc r err _ _ hc hr (Or.inl ⟨h1, rfl, rfl⟩) hp
          | none =>
            rcases hq : SetPermission db drv req.DocID doc.Owner2 "reader"
              ⟨r, wp.requests, w.calls ++ [⟨.checkUserChanges req.DocID req.Email, false⟩,
                ⟨.removeUserSign req.Email req.DocID, false⟩,
                ⟨.setPermission req.DocID doc.Owner1 "writer", false⟩]⟩ with ⟨qe, wq⟩
            obtain ⟨hqr, hqc⟩ := SetPermission_world db drv _ _ _ _ wq _ hq
            simp only at hqr hqc
            cases qe with
            | some err =>
              have h : DocSignHandler db drv (.ok req) w =
                  (some (errorHandler err StatusInternalServerError),
                    ⟨r, wq.requests,
                      w.calls ++ [⟨.checkUserChanges req.DocID req.Email, false⟩,
                        ⟨.removeUserSign req.Email req.DocID, false⟩,
                        ⟨.setPermission req.DocID doc.Owner1 "writer", false⟩,
                        ⟨.setPermission req.DocID doc.Owner2 "reader", true⟩]⟩) := by
                simp [DocSignHandler, hc, World.logged, hcr, hcc, hr, failed, h1, hp, hpr, hpc,
                  hq, hqr, hqc]
              rw [h]
              exact .regrantSecondFailed wc wp wq doc r err _ _ hc hr (Or.inl ⟨h1, rfl, rfl⟩) hp hq
            | none =>
              rcases ha : db.AddUserSign doc.Owner2 req.DocID r with ⟨ar, r'⟩
              cases ar with
              | error err =>
                have h : DocSignHandler db drv (.ok req) w =
                    (some (errorHandler err StatusInternalServerError),
                      ⟨r', wq.requests,
                        w.calls ++ [⟨.checkUserChanges req.DocID req.Email, false⟩,
                          ⟨.removeUserSign req.Email req.DocID, false⟩,
                          ⟨.setPermission req.DocID doc.Owner1 "writer", false⟩,
                          ⟨.setPermission req.DocID doc.Owner2 "reader", false⟩,
                          ⟨.addUserSign doc.Owner2 req.DocID, true⟩]⟩) := by
                  simp [DocSignHandler, hc, World.logged, hcr, hcc, hr, failed, h1, hp, hpr,
                    hpc, hq, hqr, hqc, ha]
                rw [h]
                exact .regrantSignFailed wc wp wq doc r r' err _ _ hc hr (Or.inl ⟨h1, rfl, rfl⟩) hp hq ha
              | ok usrDoc =>
                have h : DocSignHandler db drv (.ok req) w =
                    (some ⟨StatusOK, ⟨true, "", .document (some usrDoc)⟩⟩,
                      ⟨r', wq.requests,
                        w.calls ++ [⟨.checkUserChanges req.DocID req.Email, false⟩,
                          ⟨.removeUserSign req.Email req.DocID, false⟩,
                          ⟨.setPermission req.DocID doc.Owner1 "writer", false⟩,
                          ⟨.setPermission req.DocID doc.Owner2 "reader", false⟩,
                          ⟨.addUserSign doc.Owner2 req.DocID, false⟩]⟩) := by
                  simp [DocSignHandler, hc, World.logged, hcr, hcc, hr, failed, h1, hp, hpr,
                    hpc, hq, hqr, hqc, ha]
                rw [h]
                exact .regranted wc wp wq doc usrDoc r r' _ _ hc hr (Or.inl ⟨h1, rfl, rfl⟩) hp hq ha
        · by_cases h2 : doc.Signed2 = 0
          · rcases hp : SetPermission db drv req.DocID doc.Owner2 "writer"
              ⟨r, wc.requests, w.calls ++ [⟨.checkUserChanges req.DocID req.Email, false⟩,
                ⟨.removeUserSign req.Email req.DocID, false⟩]⟩ with ⟨pe, wp⟩
            obtain ⟨hpr, hpc⟩ := SetPermission_world db drv _ _ _ _ wp _ hp
            simp only at hpr hpc
            cases pe with
            | some err =>
              have h : DocSignHandler db drv (.ok req) w =
                  (some (errorHandler err StatusInternalServerError),
                    ⟨r, wp.requests,
                      w.calls ++ [⟨.checkUserChanges req.DocID req.Email, false⟩,
                        ⟨.removeUserSign req.Email req.DocID, false⟩,
                        ⟨.setPermission req.DocID doc.Owner2 "writer", true⟩]⟩) := by
                simp [DocSignHandler, hc, World.logged, hcr, hcc, hr, failed, h1, h2, hp, hpr, hpc]
              rw [h]
              exact .regrantFirstFailed wc wp doc r err _ _ hc hr (Or.inr ⟨h1, h2, rfl, rfl⟩) hp
            | none =>
              rcases hq : SetPermission db drv req.DocID doc.Owner1 "reader"
                ⟨r, wp.requests, w.calls ++ [⟨.checkUserChanges req.DocID req.Email, false⟩,
                  ⟨.removeUserSign req.Email req.DocID, false⟩,
                  ⟨.setPermission req.DocID doc.Owner2 "writer", false⟩]⟩ with ⟨qe, wq⟩
              obtain ⟨hqr, hqc⟩ := SetPermission_world db drv _ _ _ _ wq _ hq
              simp only at hqr hqc
              cases qe with
              | some err =>
                have h : DocSignHandler db drv (.ok req) w =
                    (some (errorHandler err StatusInternalServerError),
                      ⟨r, wq.requests,
                        w.calls ++ [⟨.checkUserChanges req.DocID req.Email, false⟩,
                          ⟨.removeUserSign req.Email req.DocID, false⟩,
                          ⟨.setPermission req.DocID doc.Owner2 "writer", false⟩,
                          ⟨.setPermission req.DocID doc.Owner1 "reader", true⟩]⟩) := by
                  simp [DocSignHandler, hc, World.logged, hcr, hcc, hr, failed, h1, h2, hp, hpr, hpc,
                    hq, hqr, hqc]
                rw [h]
                exact .regrantSecondFailed wc wp wq doc r err _ _ hc hr (Or.inr ⟨h1, h2, rfl, rfl⟩) hp hq
              | none =>
                rcases ha : db.AddUserSign doc.Owner1 req.DocID r with ⟨ar, r'⟩
                cases ar with
                | error err =>
                  have h : DocSignHandler db drv (.ok req) w =
                      (some (errorHandler err StatusInternalServerError),
                        ⟨r', wq.requests,
                          w.calls ++ [⟨.checkUserChanges req.DocID req.Email, false⟩,
                            ⟨.removeUserSign req.Email req.DocID, false⟩,
                            ⟨.setPermission req.DocID doc.Owner2 "writer", false⟩,
                            ⟨.setPermission req.DocID doc.Owner1 "reader", false⟩,
                            ⟨.addUserSign doc.Owner1 req.DocID, true⟩]⟩) := by
                    simp [DocSignHandler, hc, World.logged, hcr, hcc, hr, failed, h1, h2, hp, hpr,
                      hpc, hq, hqr, hqc, ha]
                  rw [h]
                  exact .regrantSignFailed wc wp wq doc r r' err _ _ hc hr (Or.inr ⟨h1, h2, rfl, rfl⟩) hp hq ha
                | ok usrDoc =>
                  have h : DocSignHandler db drv (.ok req) w =
                      (some ⟨StatusOK, ⟨true, "", .document (some usrDoc)⟩⟩,
                        ⟨r', wq.requests,
                          w.calls ++ [⟨.checkUserChanges req.DocID req.Email, false⟩,
                            ⟨.removeUserSign req.Email req.DocID, false⟩,
                            ⟨.setPermission req.DocID doc.Owner2 "writer", false⟩,
                            ⟨.setPermission req.DocID doc.Owner1 "reader", false⟩,
                            ⟨.addUserSign doc.Owner1 req.DocID, false⟩]⟩) := by
                    simp [DocSignHandler, hc, World.logged, hcr, hcc, hr, failed, h1, h2, hp, hpr,
                      hpc, hq, hqr, hqc, ha]
                  rw [h]
                  exact .regranted wc wp wq doc usrDoc r r' _ _ hc hr (Or.inr ⟨h1, h2, rfl, rfl⟩) hp hq ha
          · have h : DocSignHandler db drv (.ok req) w =
                (some ⟨StatusOK, ⟨true, "", .document none⟩⟩,
                  ⟨r, wc.requests,
                    w.calls ++ [⟨.checkUserChanges req.DocID req.Email, false⟩,
                      ⟨.removeUserSign req.Email req.DocID, false⟩]⟩) := by
              simp [DocSignHandler, hc, World.logged, hcr, hcc, hr, failed, h1, h2]
            rw [h]
            exact .bothSigned wc doc r hc hr h1 h2

@[simp]
theorem callsOf_mk {ρ : Type} (w : World ρ) (r : ρ) (q : List DriveRequest)
    (xs : List Call) : callsOf w ⟨r, q, w.calls ++ xs⟩ = xs := by
  simp [callsOf]

@[simp]
theorem callsOf_self {ρ : Type} (w : World ρ) (r : ρ) (q : List DriveRequest) :
    callsOf w ⟨r, q, w.calls⟩ = [] := by
  simp [callsOf]

/-- The world after the withdrawal, from the answers of the two calls. -/
theorem afterWithdrawal_eq {ρ : Type} (db : RecordStore ρ) (drv : Drive)
    (req : userPermission) (w wc : World ρ) (res : Except String Document) (r : ρ)
    (hc : CheckUserChanges drv req.DocID req.Email w = (some (true, none), wc))
    (hr : db.RemoveUserSign req.Email req.DocID w.records = (res, r)) :
    afterWithdrawal db drv req w =
      ⟨r, wc.requests, w.calls ++ [⟨.checkUserChanges req.DocID req.Email, false⟩,
        ⟨.removeUserSign req.Email req.DocID, failed res⟩]⟩ := by
  simp [afterWithdrawal, hc, hr]

/-- The world after a recorded `SetPermission` call, from its answer. -/
theorem afterGrant_eq {ρ : Type} (db : RecordStore ρ) (drv : Drive)
    (fileID email perm : String) (w wp : World ρ) (pe : Option String)
    (hp : SetPermission db drv fileID email perm w = (pe, wp)) :
    afterGrant db drv fileID email perm w =
      ⟨w.records, wp.requests, w.calls ++ [⟨.setPermission fileID email perm, pe.isSome⟩]⟩ := by
  obtain ⟨h1, h2⟩ := SetPermission_world db drv _ _ _ _ wp _ hp
  simp [afterGrant, hp, World.logged, h1, h2]

/-! ## The claims -/

/-- C1, counterexample. Document `d1` is at (1,0); party A asks to sign while the last
modifier is party B, so the request is diverged; the external store refuses the
first permission write. `SetPermission` returns an error, yet `RemoveUserSign`
has already run and the record store differs from its pre-request value. -/
theorem withdrawal_survives_failed_grant :
    ¬ ((∃ c ∈ callsOf (worldAB 1 0)
          (DocSignHandler specStore (driveFake "b@x.com" 0) (.ok ⟨"a@x.com", "d1"⟩)
            (worldAB 1 0)).2, c.op.isExternal = true ∧ c.failed = true) →
        (∀ c ∈ callsOf (worldAB 1 0)
          (DocSignHandler specStore (driveFake "b@x.com" 0) (.ok ⟨"a@x.com", "d1"⟩)
            (worldAB 1 0)).2, c.op.isMutation = false) ∧
        (DocSignHandler specStore (driveFake "b@x.com" 0) (.ok ⟨"a@x.com", "d1"⟩)
          (worldAB 1 0)).2.records = (worldAB 1 0).records) := by
  decide

/-- C1, amended. When an external-store call of a signing request (`CheckUserChanges`
or a `SetPermission`) returns an error, the reply is a failure and no
`AddUserSign` has been performed. If the divergence check did not report
diverged (it failed, or the request is on the non-diverged path), no Document
Record mutation has been performed and the record store is identical to its
pre-request value. If it reported diverged, the one mutation performed is the
withdrawal `RemoveUserSign`, which the handler runs before any `SetPermission`,
and the record store is the one that withdrawal left. -/
theorem external_failure_precedes_increment
    {ρ : Type} (db : RecordStore ρ) (drv : Drive) (req : userPermission) (w : World ρ)
    (hx : ∃ c ∈ callsOf w (DocSignHandler db drv (.ok req) w).2,
      c.op.isExternal = true ∧ c.failed = true) :
    successOf (DocSignHandler db drv (.ok req) w).1 = some false ∧
    (∀ c ∈ callsOf w (DocSignHandler db drv (.ok req) w).2, c.op.isAddUserSign = false) ∧
    ((CheckUserChanges drv req.DocID req.Email w).1 ≠ some (true, none) →
      (∀ c ∈ callsOf w (DocSignHandler db drv (.ok req) w).2, c.op.isMutation = false) ∧
      (DocSignHandler db drv (.ok req) w).2.records = w.records) ∧
    ((CheckUserChanges drv req.DocID req.Email w).1 = some (true, none) →
      (callsOf w (DocSignHandler db drv (.ok req) w).2).filter (fun c => c.op.isMutation)
        = [⟨.removeUserSign req.Email req.DocID, false⟩] ∧
      (DocSignHandler db drv (.ok req) w).2.records
        = (db.RemoveUserSign req.Email req.DocID w.records).2) := by
  have h := DocSignHandler_run db drv req w
  generalize DocSignHandler db drv (.ok req) w = out at h hx ⊢
  cases h <;>
    simp_all [errorHandler, successOf, Op.isExternal, Op.isMutation, Op.isAddUserSign]

/-- C1, witness: the amended statement at the diverged request whose first
permission write is refused. -/
theorem external_failure_precedes_increment_witness :
    (∃ c ∈ callsOf (worldAB 1 0)
        (DocSignHandler specStore (driveFake "b@x.com" 0) (.ok ⟨"a@x.com", "d1"⟩)
          (worldAB 1 0)).2, c.op.isExternal = true ∧ c.failed = true) ∧
    successOf (DocSignHandler specStore (driveFake "b@x.com" 0) (.ok ⟨"a@x.com", "d1"⟩)
      (worldAB 1 0)).1 = some false ∧
    (∀ c ∈ callsOf (worldAB 1 0)
        (DocSignHandler specStore (driveFake "b@x.com" 0) (.ok ⟨"a@x.com", "d1"⟩)
          (worldAB 1 0)).2, c.op.isAddUserSign = false) :=
  ⟨by decide,
    (external_failure_precedes_increment specStore (driveFake "b@x.com" 0)
      ⟨"a@x.com", "d1"⟩ (worldAB 1 0) (by decide)).1,
    (external_failure_precedes_increment specStore (driveFake "b@x.com" 0)
      ⟨"a@x.com", "d1"⟩ (worldAB 1 0) (by decide)).2.1⟩

/-- C3. For a signing request on which `CheckUserChanges` reports diverged, in any
record state and for any record store, the handler first performs the withdrawal
`RemoveUserSign` with the requesting email, on the pre-request store. If it
fails the handler replies with that error and the world is the one the
withdrawal left. If it returns a record with both counters non-zero the handler
replies without any further call, leaving that same world. Otherwise the first
permission call is `SetPermission(first, "writer")` with `first` chosen on the
returned record (`Owner1` if its `Signed1` is 0, else `Owner2`, its `Signed2`
being 0), and that call runs on the world the withdrawal left: its outcome is
the one recorded, its requests come before any later request, a failure ends the
request there, every later call is a `SetPermission` or an `AddUserSign`, and the
final store is the withdrawn store, with at most one `AddUserSign` applied to
it. -/
theorem diverged_sign_withdraws_first
    {ρ : Type} (db : RecordStore ρ) (drv : Drive) (req : userPermission) (w : World ρ)
    (hd : (CheckUserChanges drv req.DocID req.Email w).1 = some (true, none)) :
    (∀ err, (db.RemoveUserSign req.Email req.DocID w.records).1 = .error err →
      DocSignHandler db drv (.ok req) w =
        (some (errorHandler err StatusInternalServerError), afterWithdrawal db drv req w)) ∧
    (∀ doc, (db.RemoveUserSign req.Email req.DocID w.records).1 = .ok doc →
      (doc.Signed1 ≠ 0 → doc.Signed2 ≠ 0 →
        DocSignHandler db drv (.ok req) w =
          (some ⟨200, ⟨true, "", .document none⟩⟩, afterWithdrawal db drv req w)) ∧
      (∀ first, (doc.Signed1 = 0 ∧ first = doc.Owner1) ∨
          (doc.Signed1 ≠ 0 ∧ doc.Signed2 = 0 ∧ first = doc.Owner2) →
        (∀ err, (SetPermission db drv req.DocID first "writer"
            (afterWithdrawal db drv req w)).1 = some err →
          DocSignHandler db drv (.ok req) w =
            (some (errorHandler err StatusInternalServerError),
              afterGrant db drv req.DocID first "writer" (afterWithdrawal db drv req w))) ∧
        ∃ tl more,
          callsOf w (DocSignHandler db drv (.ok req) w).2 =
            ⟨.checkUserChanges req.DocID req.Email, false⟩ ::
            ⟨.removeUserSign req.Email req.DocID, false⟩ ::
            ⟨.setPermission req.DocID first "writer",
              (SetPermission db drv req.DocID first "writer"
                (afterWithdrawal db drv req w)).1.isSome⟩ :: tl ∧
          (∀ c ∈ tl, c.op.isSetPermission = true ∨ c.op.isAddUserSign = true) ∧
          (DocSignHandler db drv (.ok req) w).2.requests =
            (SetPermission db drv req.DocID first "writer"
              (afterWithdrawal db drv req w)).2.requests ++ more ∧
          ((DocSignHandler db drv (.ok req) w).2.records =
              (afterWithdrawal db drv req w).records ∨
            ∃ e, (DocSignHandler db drv (.ok req) w).2.records =
              (db.AddUserSign e req.DocID (afterWithdrawal db drv req w).records).2))) := by
  have h := DocSignHandler_run db drv req w
  generalize DocSignHandler db drv (.ok req) w = out at h ⊢
  cases h
  case checkPanicked wc hc => simp [hc] at hd
  case checkFailed b err wc hc => simp [hc] at hd
  case lockFailed wc wp err hc hp => simp [hc] at hd
  case signFailed wc wp err r hc hp ha => simp [hc] at hd
  case signed wc wp file r hc hp ha => simp [hc] at hd
  case withdrawFailed wc err r hc hr =>
    rw [afterWithdrawal_eq db drv req w wc _ r hc hr]
    simp [hr, failed]
  case bothSigned wc doc r hc hr h1 h2 =>
    rw [afterWithdrawal_eq db drv req w wc _ r hc hr]
    simp [hr, failed, h1, h2, StatusOK]
  case regrantFirstFailed wc wp doc r err first second hc hr hb hp =>
    rw [afterWithdrawal_eq db drv req w wc _ r hc hr]
    simp only [failed] at hp ⊢
    refine ⟨by simp [hr], ?_⟩
    intro doc' hdoc
    simp only [hr, Except.ok.injEq] at hdoc
    subst hdoc
    have hfirst : ∀ f, (doc.Signed1 = 0 ∧ f = doc.Owner1) ∨
        (doc.Signed1 ≠ 0 ∧ doc.Signed2 = 0 ∧ f = doc.Owner2) → f = first := by
      intro f hf
      rcases hb with ⟨h1, rfl, -⟩ | ⟨h1, h2, rfl, -⟩ <;>
        rcases hf with ⟨g1, rfl⟩ | ⟨g1, g2, rfl⟩ <;>
        first | rfl | exact absurd h1 g1 | exact absurd g1 h1
    refine ⟨fun h1 h2 => ?_, fun f hf => ?_⟩
    · rcases hb with ⟨g1, -⟩ | ⟨-, g2, -⟩
      · exact absurd g1 h1
      · exact absurd g2 h2
    · obtain rfl := hfirst f hf
      rw [afterGrant_eq db drv _ _ _ _ wp _ hp, hp]
      exact ⟨by simp, [], [], by simp, by simp, by simp, by simp⟩
  case regrantSecondFailed wc wp wq doc r err first second hc hr hb hp hq =>
    rw [afterWithdrawal_eq db drv req w wc _ r hc hr]
    simp only [failed] at hp ⊢
    refine ⟨by simp [hr], ?_⟩
    intro doc' hdoc
    simp only [hr, Except.ok.injEq] at hdoc
    subst hdoc
    have hfirst : ∀ f, (doc.Signed1 = 0 ∧ f = doc.Owner1) ∨
        (doc.Signed1 ≠ 0 ∧ doc.Signed2 = 0 ∧ f = doc.Owner2) → f = first := by
      intro f hf
      rcases hb with ⟨h1, rfl, -⟩ | ⟨h1, h2, rfl, -⟩ <;>
        rcases hf with ⟨g1, rfl⟩ | ⟨g1, g2, rfl⟩ <;>
        first | rfl | exact absurd h1 g1 | exact absurd g1 h1
    refine ⟨fun h1 h2 => ?_, fun f hf => ?_⟩
    · rcases hb with ⟨g1, -⟩ | ⟨-, g2, -⟩
      · exact absurd g1 h1
      · exact absurd g2 h2
    · obtain rfl := hfirst f hf
      obtain ⟨more, hmore⟩ := SetPermission_requests_extend db drv req.DocID second "reader"
        ⟨r, wp.requests, w.calls ++ [⟨.checkUserChanges req.DocID req.Email, false⟩,
          ⟨.removeUserSign req.Email req.DocID, false⟩,
          ⟨.setPermission req.DocID f "writer", false⟩]⟩
      rw [hq] at hmore
      rw [hp]
      refine ⟨by simp, _, more, by rw [callsOf_mk]; rfl, ?_, hmore, ?_⟩
      · simp [Op.isSetPermission, Op.isAddUserSign]
      · simp
  case regrantSignFailed wc wp wq doc r r' err first second hc hr hb hp hq ha =>
    rw [afterWithdrawal_eq db drv req w wc _ r hc hr]
    simp only [failed] at hp ⊢
    refine ⟨by simp [hr], ?_⟩
    intro doc' hdoc
    simp only [hr, Except.ok.injEq] at hdoc
    subst hdoc
    have hfirst : ∀ f, (doc.Signed1 = 0 ∧ f = doc.Owner1) ∨
        (doc.Signed1 ≠ 0 ∧ doc.Signed2 = 0 ∧ f = doc.Owner2) → f = first := by
      intro f hf
      rcases hb with ⟨h1, rfl, -⟩ | ⟨h1, h2, rfl, -⟩ <;>
        rcases hf with ⟨g1, rfl⟩ | ⟨g1, g2, rfl⟩ <;>
        first | rfl | exact absurd h1 g1 | exact absurd g1 h1
    refine ⟨fun h1 h2 => ?_, fun f hf => ?_⟩
    · rcases hb with ⟨g1, -⟩ | ⟨-, g2, -⟩
      · exact absurd g1 h1
      · exact absurd g2 h2
    · obtain rfl := hfirst f hf
      obtain ⟨more, hmore⟩ := SetPermission_requests_extend db drv req.DocID second "reader"
        ⟨r, wp.requests, w.calls ++ [⟨.checkUserChanges req.DocID req.Email, false⟩,
          ⟨.removeUserSign req.Email req.DocID, false⟩,
          ⟨.setPermission req.DocID f "writer", false⟩]⟩
      rw [hq] at hmore
      rw [hp]
      refine ⟨by simp, _, more, by rw [callsOf_mk]; rfl, ?_, hmore, ?_⟩
      · simp [Op.isSetPermission, Op.isAddUserSign]
      · exact Or.inr ⟨second, by simp [ha]⟩
  case regranted wc wp wq doc usrDoc r r' first second hc hr hb hp hq ha =>
    rw [afterWithdrawal_eq db drv req w wc _ r hc hr]
    simp only [failed] at hp ⊢
    refine ⟨by simp [hr], ?_⟩
    intro doc' hdoc
    simp only [hr, Except.ok.injEq] at hdoc
    subst hdoc
    have hfirst : ∀ f, (doc.Signed1 = 0 ∧ f = doc.Owner1) ∨
        (doc.Signed1 ≠ 0 ∧ doc.Signed2 = 0 ∧ f = doc.Owner2) → f = first := by
      intro f hf
      rcases hb with ⟨h1, rfl, -⟩ | ⟨h1, h2, rfl, -⟩ <;>
        rcases hf with ⟨g1, rfl⟩ | ⟨g1, g2, rfl⟩ <;>
        first | rfl | exact absurd h1 g1 | exact absurd g1 h1
    refine ⟨fun h1 h2 => ?_, fun f hf => ?_⟩
    · rcases hb with ⟨g1, -⟩ | ⟨-, g2, -⟩
      · exact absurd g1 h1
      · exact absurd g2 h2
    · obtain rfl := hfirst f hf
      obtain ⟨more, hmore⟩ := SetPermission_requests_extend db drv req.DocID second "reader"
        ⟨r, wp.requests, w.calls ++ [⟨.checkUserChanges req.DocID req.Email, false⟩,
          ⟨.removeUserSign req.Email req.DocID, false⟩,
          ⟨.setPermission req.DocID f "writer", false⟩]⟩
      rw [hq] at hmore
      rw [hp]
      refine ⟨by simp, _, more, by rw [callsOf_mk]; rfl, ?_, hmore, ?_⟩
      · simp [Op.isSetPermission, Op.isAddUserSign]
      · exact Or.inr ⟨second, by simp [ha]⟩

/-- C3, witness: party A asks to sign `d1` at (1,0) after party B modified it. The
pre-request `Signed1` is 1, the withdrawal returns 0, and the first permission
call grants party A the role writer on the withdrawn store. -/
theorem diverged_sign_withdraws_first_witness :
    (CheckUserChanges (driveFake "b@x.com" 100) "d1" "a@x.com" (worldAB 1 0)).1
      = some (true, none) ∧
    (afterWithdrawal specStore (driveFake "b@x.com" 100) ⟨"a@x.com", "d1"⟩
      (worldAB 1 0)).records = [docAB 0 0] ∧
    ∃ tl, callsOf (worldAB 1 0)
        (DocSignHandler specStore (driveFake "b@x.com" 100) (.ok ⟨"a@x.com", "d1"⟩)
          (worldAB 1 0)).2 =
        ⟨.checkUserChanges "d1" "a@x.com", false⟩ ::
        ⟨.removeUserSign "a@x.com" "d1", false⟩ ::
        ⟨.setPermission "d1" "a@x.com" "writer", false⟩ :: tl := by
  obtain ⟨tl, -, hcalls, -⟩ := (((diverged_sign_withdraws_first specStore
    (driveFake "b@x.com" 100) ⟨"a@x.com", "d1"⟩ (worldAB 1 0) (by decide)).2
      (docAB 0 0) rfl).2 "a@x.com" (Or.inl ⟨rfl, rfl⟩)).2
  exact ⟨by decide, rfl, tl, hcalls⟩

/-- C5, counterexample. Document `d1` is at (1,0) and party B asks to sign after
party A modified it. The reply's record is at (2,0), not (1,1): no
`AddUserSign` is made for party B. -/
theorem scenario_result_is_not_one_one :
    countersOf (DocSignHandler specStore (driveFake "a@x.com" 100) (.ok ⟨"b@x.com", "d1"⟩)
        (worldAB 1 0)).1 ≠ some (1, 1) ∧
    countersOf (DocSignHandler specStore (driveFake "a@x.com" 100) (.ok ⟨"b@x.com", "d1"⟩)
        (worldAB 1 0)).1 = some (2, 0) ∧
    (⟨.addUserSign "b@x.com" "d1", false⟩ : Call) ∉ callsOf (worldAB 1 0)
      (DocSignHandler specStore (driveFake "a@x.com" 100) (.ok ⟨"b@x.com", "d1"⟩)
        (worldAB 1 0)).2 := by
  decide

/-- C5, amended. For the document `d1` with parties a@x.com and b@x.com at (1,0) and
a signing request from b@x.com on which the divergence check reports diverged
and which succeeds: the withdrawal leaves party B's zero counter unchanged; then,
`Signed1` being non-zero and `Signed2` zero, the handler grants party B writer,
grants party A reader and records the increment for party A (`AddUserSign`
with a@x.com); `Signed2` stays 0 and, `AddUserSign` incrementing the named
party's counter, the resulting record is at (2,0). -/
theorem scenario_regrant_counts_partyA (drv : Drive)
    (hd : (CheckUserChanges drv "d1" "b@x.com" (worldAB 1 0)).1 = some (true, none))
    (hs : successOf (DocSignHandler specStore drv (.ok ⟨"b@x.com", "d1"⟩)
      (worldAB 1 0)).1 = some true) :
    RemoveUserSign "b@x.com" "d1" (worldAB 1 0).records = (.ok (docAB 1 0), [docAB 1 0]) ∧
    callsOf (worldAB 1 0)
        (DocSignHandler specStore drv (.ok ⟨"b@x.com", "d1"⟩) (worldAB 1 0)).2 =
      [⟨.checkUserChanges "d1" "b@x.com", false⟩,
       ⟨.removeUserSign "b@x.com" "d1", false⟩,
       ⟨.setPermission "d1" "b@x.com" "writer", false⟩,
       ⟨.setPermission "d1" "a@x.com" "reader", false⟩,
       ⟨.addUserSign "a@x.com" "d1", false⟩] ∧
    (DocSignHandler specStore drv (.ok ⟨"b@x.com", "d1"⟩) (worldAB 1 0)).1
      = some ⟨200, ⟨true, "", .document (some (docAB 2 0))⟩⟩ ∧
    (DocSignHandler specStore drv (.ok ⟨"b@x.com", "d1"⟩) (worldAB 1 0)).2.records
      = [docAB 2 0] := by
  have hrm : specStore.RemoveUserSign "b@x.com" "d1" (worldAB 1 0).records
      = (.ok (docAB 1 0), [docAB 1 0]) := by rfl
  have had : specStore.AddUserSign "a@x.com" "d1" [docAB 1 0]
      = (.ok (docAB 2 0), [docAB 2 0]) := by rfl
  have h := DocSignHandler_run specStore drv ⟨"b@x.com", "d1"⟩ (worldAB 1 0)
  generalize DocSignHandler specStore drv (.ok ⟨"b@x.com", "d1"⟩) (worldAB 1 0) = out at h hs ⊢
  refine ⟨hrm, ?_⟩
  cases h
  case checkPanicked => simp [successOf] at hs
  case checkFailed b err wc hc => simp [errorHandler, successOf] at hs
  case lockFailed wc wp err hc hp => simp [errorHandler, successOf] at hs
  case signFailed wc wp err r hc hp ha => simp [errorHandler, successOf] at hs
  case signed wc wp file r hc hp ha => simp [hc] at hd
  case withdrawFailed wc err r hc hr => simp [errorHandler, successOf] at hs
  case regrantFirstFailed => simp [errorHandler, successOf] at hs
  case regrantSecondFailed => simp [errorHandler, successOf] at hs
  case regrantSignFailed => simp [errorHandler, successOf] at hs
  case bothSigned wc doc r hc hr h1 h2 =>
    rw [hrm] at hr
    simp at hr
    obtain ⟨rfl, rfl⟩ := hr
    exact absurd rfl h2
  case regranted wc wp wq doc usrDoc r r' first second hc hr hb hp hq ha =>
    rw [hrm] at hr
    simp at hr
    obtain ⟨rfl, rfl⟩ := hr
    obtain ⟨h1, -⟩ | ⟨-, -, rfl, rfl⟩ := hb
    · exact absurd h1 (by decide)
    · rw [show (docAB 1 0).Owner1 = "a@x.com" from rfl] at ha
      rw [had] at ha
      simp at ha
      obtain ⟨rfl, rfl⟩ := ha
      refine ⟨?_, rfl, rfl⟩
      rw [callsOf_mk]
      rfl

/-- C5, witness: the scenario with every permission write accepted. -/
theorem scenario_regrant_counts_partyA_witness :
    (CheckUserChanges (driveFake "a@x.com" 100) "d1" "b@x.com" (worldAB 1 0)).1
      = some (true, none) ∧
    successOf (DocSignHandler specStore (driveFake "a@x.com" 100) (.ok ⟨"b@x.com", "d1"⟩)
      (worldAB 1 0)).1 = some true ∧
    (DocSignHandler specStore (driveFake "a@x.com" 100) (.ok ⟨"b@x.com", "d1"⟩)
      (worldAB 1 0)).1 = some ⟨200, ⟨true, "", .document (some (docAB 2 0))⟩⟩ :=
  ⟨by decide, by decide,
    (scenario_regrant_counts_partyA (driveFake "a@x.com" 100) (by decide) (by decide)).2.2.1⟩

/-- C6, the code at the failing case. For a diverged signing request whose
withdrawal returns a record with both counters non-zero, the handler makes no
further call and replies with success and a nil document (JSON `null`), not with
the record the withdrawal left. -/
theorem both_signed_reply_has_null_data
    {ρ : Type} (db : RecordStore ρ) (drv : Drive) (req : userPermission) (w : World ρ)
    (doc : Document) (r : ρ)
    (hd : (CheckUserChanges drv req.DocID req.Email w).1 = some (true, none))
    (hr : db.RemoveUserSign req.Email req.DocID w.records = (.ok doc, r))
    (h1 : doc.Signed1 ≠ 0) (h2 : doc.Signed2 ≠ 0) :
    (DocSignHandler db drv (.ok req) w).1 = some ⟨200, ⟨true, "", .document none⟩⟩ ∧
    (DocSignHandler db drv (.ok req) w).2.records = r ∧
    callsOf w (DocSignHandler db drv (.ok req) w).2 =
      [⟨.checkUserChanges req.DocID req.Email, false⟩,
       ⟨.removeUserSign req.Email req.DocID, false⟩] := by
  have h := DocSignHandler_run db drv req w
  generalize DocSignHandler db drv (.ok req) w = out at h ⊢
  cases h <;> simp_all [StatusOK, successOf]

/-- C6, witness: party A asks to sign `d1` at (2,1) after party B modified it; the
withdrawal leaves (1,1) and the successful reply carries no record. -/
theorem both_signed_reply_has_null_data_witness :
    (CheckUserChanges (driveFake "b@x.com" 100) "d1" "a@x.com" (worldAB 2 1)).1
      = some (true, none) ∧
    specStore.RemoveUserSign "a@x.com" "d1" (worldAB 2 1).records
      = (.ok (docAB 1 1), [docAB 1 1]) ∧
    (DocSignHandler specStore (driveFake "b@x.com" 100) (.ok ⟨"a@x.com", "d1"⟩)
      (worldAB 2 1)).1 = some ⟨200, ⟨true, "", .document none⟩⟩ :=
  ⟨by decide, rfl,
    (both_signed_reply_has_null_data specStore (driveFake "b@x.com" 100) ⟨"a@x.com", "d1"⟩
      (worldAB 2 1) (docAB 1 1) [docAB 1 1] (by decide) rfl (by decide) (by decide)).1⟩

/-- C7, counterexample. Party A asks to sign `d1` at (0,0) after party B modified
it: the request succeeds with two Document Record updates, `RemoveUserSign`
and `AddUserSign`, not one. -/
theorem regrant_makes_two_record_updates :
    ¬ (successOf (DocSignHandler specStore (driveFake "b@x.com" 100) (.ok ⟨"a@x.com", "d1"⟩)
          (worldAB 0 0)).1 = some true →
        permissionCalls (callsOf (worldAB 0 0)
          (DocSignHandler specStore (driveFake "b@x.com" 100) (.ok ⟨"a@x.com", "d1"⟩)
            (worldAB 0 0)).2) ≤ 3 ∧
        recordUpdates (callsOf (worldAB 0 0)
          (DocSignHandler specStore (driveFake "b@x.com" 100) (.ok ⟨"a@x.com", "d1"⟩)
            (worldAB 0 0)).2) = 1) := by
  decide

/-- C7, amended. For a signing request that succeeds, the number of `SetPermission`
calls is between 0 and 3 and the divergence check returned without error. On the
non-diverged path there is one `SetPermission` call and one Document Record
update. On the diverged path the withdrawal returned a record; if one of its
counters is 0 there are two `SetPermission` calls and two Document Record
updates (`RemoveUserSign`, then `AddUserSign`), and if both are non-zero
there is no `SetPermission` call and one Document Record update. -/
theorem successful_sign_call_counts
    {ρ : Type} (db : RecordStore ρ) (drv : Drive) (req : userPermission) (w : World ρ)
    (hs : successOf (DocSignHandler db drv (.ok req) w).1 = some true) :
    permissionCalls (callsOf w (DocSignHandler db drv (.ok req) w).2) ≤ 3 ∧
    ((CheckUserChanges drv req.DocID req.Email w).1 = some (false, none) ∨
      (CheckUserChanges drv req.DocID req.Email w).1 = some (true, none)) ∧
    ((CheckUserChanges drv req.DocID req.Email w).1 = some (false, none) →
      permissionCalls (callsOf w (DocSignHandler db drv (.ok req) w).2) = 1 ∧
      recordUpdates (callsOf w (DocSignHandler db drv (.ok req) w).2) = 1) ∧
    ((CheckUserChanges drv req.DocID req.Email w).1 = some (true, none) →
      ∃ doc, (db.RemoveUserSign req.Email req.DocID w.records).1 = .ok doc ∧
        (doc.Signed1 = 0 ∨ doc.Signed2 = 0 →
          permissionCalls (callsOf w (DocSignHandler db drv (.ok req) w).2) = 2 ∧
          recordUpdates (callsOf w (DocSignHandler db drv (.ok req) w).2) = 2) ∧
        (doc.Signed1 ≠ 0 ∧ doc.Signed2 ≠ 0 →
          permissionCalls (callsOf w (DocSignHandler db drv (.ok req) w).2) = 0 ∧
          recordUpdates (callsOf w (DocSignHandler db drv (.ok req) w).2) = 1)) := by
  have h := DocSignHandler_run db drv req w
  generalize DocSignHandler db drv (.ok req) w = out at h hs ⊢
  cases h
  case signed wc wp file r hc hp ha =>
    simp [hc, permissionCalls, recordUpdates, Op.isSetPermission, Op.isMutation]
  case bothSigned wc doc r hc hr h1 h2 =>
    simp [hc, hr, h1, h2, permissionCalls, recordUpdates, Op.isSetPermission, Op.isMutation]
  case regranted wc wp wq doc usrDoc r r' first second hc hr hb hp hq ha =>
    have hb' : ¬ (doc.Signed1 ≠ 0 ∧ doc.Signed2 ≠ 0) := by
      rcases hb with ⟨h1, -⟩ | ⟨-, h2, -⟩
      · exact fun h => h.1 h1
      · exact fun h => h.2 h2
    simp [hc, hr, permissionCalls, recordUpdates, Op.isSetPermission, Op.isMutation]
    intro h1
    by_contra h2
    exact hb' ⟨h1, h2⟩
  all_goals simp [errorHandler, successOf] at hs

/-- C7, witness: the diverged request of party A on `d1` at (0,0). -/
theorem successful_sign_call_counts_witness :
    successOf (DocSignHandler specStore (driveFake "b@x.com" 100) (.ok ⟨"a@x.com", "d1"⟩)
      (worldAB 0 0)).1 = some true ∧
    permissionCalls (callsOf (worldAB 0 0)
      (DocSignHandler specStore (driveFake "b@x.com" 100) (.ok ⟨"a@x.com", "d1"⟩)
        (worldAB 0 0)).2) ≤ 3 :=
  ⟨by decide,
    (successful_sign_call_counts specStore (driveFake "b@x.com" 100) ⟨"a@x.com", "d1"⟩
      (worldAB 0 0) (by decide)).1⟩

/-- C8, the code on every successful fetch. When the fetched file carries a
last-modifying user, `CheckUserChanges` returns true with no error exactly when
that user's email differs from the expected email as a string, and false with no
error exactly when the two are equal. When the fetched file carries none, the
function panics on the nil pointer and returns nothing. When the fetch fails it
returns false together with that error. -/
theorem CheckUserChanges_compares_or_panics
    {ρ : Type} (drv : Drive) (fileID email : String) (w : World ρ)
    (hnew : drv.New w.requests = .ok ()) :
    (∀ file user, drv.FilesGet w.requests fileID = .ok file →
      file.LastModifyingUser = some user →
      ((CheckUserChanges drv fileID email w).1 = some (true, none) ↔
          user.EmailAddress ≠ email) ∧
      ((CheckUserChanges drv fileID email w).1 = some (false, none) ↔
          user.EmailAddress = email)) ∧
    (∀ file, drv.FilesGet w.requests fileID = .ok file →
      file.LastModifyingUser = none →
      (CheckUserChanges drv fileID email w).1 = none) ∧
    (∀ err, drv.FilesGet w.requests fileID = .error err →
      (CheckUserChanges drv fileID email w).1 = some (false, some err)) := by
  refine ⟨?_, ?_, ?_⟩
  · intro file user hf hu
    unfold CheckUserChanges
    rw [hnew]
    simp only [hf, hu]
    by_cases h : user.EmailAddress = email <;> simp [h]
  · intro file hf hu
    unfold CheckUserChanges
    rw [hnew]
    simp only [hf, hu]
  · intro err hf
    unfold CheckUserChanges
    rw [hnew]
    simp only [hf]

/-- C8, witness: the fetch of `d1` succeeds with a file that has no last-modifying
user; `CheckUserChanges` panics, and so does the handler, which writes no reply.
With a modifier present the comparison is case-sensitive. -/
theorem CheckUserChanges_compares_or_panics_witness :
    (driveNoModifier 100).New (worldAB 0 0).requests = .ok () ∧
    (driveNoModifier 100).FilesGet (worldAB 0 0).requests "d1"
      = .ok ⟨"d1", "Contract", none⟩ ∧
    (CheckUserChanges (driveNoModifier 100) "d1" "a@x.com" (worldAB 0 0)).1 = none ∧
    (DocSignHandler specStore (driveNoModifier 100) (.ok ⟨"a@x.com", "d1"⟩)
      (worldAB 0 0)).1 = none ∧
    (CheckUserChanges (driveFake "A@x.com" 100) "d1" "a@x.com" (worldAB 0 0)).1
      = some (true, none) :=
  ⟨rfl, rfl,
    (CheckUserChanges_compares_or_panics (driveNoModifier 100) "d1" "a@x.com"
      (worldAB 0 0) rfl).2.1 ⟨"d1", "Contract", none⟩ rfl rfl,
    by decide,
    (((CheckUserChanges_compares_or_panics (driveFake "A@x.com" 100) "d1" "a@x.com"
      (worldAB 0 0) rfl).1 ⟨"d1", "Contract", some ⟨"A@x.com"⟩⟩ ⟨"A@x.com"⟩ rfl rfl).1).mpr
      (by decide)⟩

/-- C9, counterexample. The record lookup for `d1` succeeds and the email is party
A's, but the external store cannot resolve the grant id for it: `SetPermission`
sends the resolution request only, and no update. -/
theorem unresolved_grant_id_sends_no_update :
    specStore.GetUserDoc "d1" (worldAB 0 0).records = .ok (docAB 0 0) ∧
    (docAB 0 0).Owner1 = "a@x.com" ∧
    (¬ ∃ r ∈ requestsOf (worldAB 0 0)
        (SetPermission specStore (driveNoGrantId "a@x.com" 100) "d1" "a@x.com" "reader"
          (worldAB 0 0)).2, r.isUpdate = true) ∧
    requestsOf (worldAB 0 0)
        (SetPermission specStore (driveNoGrantId "a@x.com" 100) "d1" "a@x.com" "reader"
          (worldAB 0 0)).2 = [.permissionsGetIdForEmail "a@x.com"] :=
  ⟨rfl, rfl, by decide, by decide⟩

/-- C9, amended. When the record lookup succeeds, `SetPermission` takes the update
route exactly when the email is the record's party A or party B email: it first
resolves the grant id for the email and never sends an insert; it sends the
update of that grant exactly when the email is a party and the grant id
resolves, and when the resolution fails it sends nothing more and returns that
error. It takes the insert route exactly when the email is neither party: it
sends one insert and never an update. Every grant written carries the given email
and the given role. -/
theorem SetPermission_updates_parties_inserts_others
    {ρ : Type} (db : RecordStore ρ) (drv : Drive) (fileID email perm : String)
    (w : World ρ) (prf : Document)
    (hnew : drv.New w.requests = .ok ())
    (hdoc : db.GetUserDoc fileID w.records = .ok prf) :
    (prf.Owner1 = email ∨ prf.Owner2 = email →
      (∀ r ∈ requestsOf w (SetPermission db drv fileID email perm w).2, r.isInsert = false) ∧
      (requestsOf w (SetPermission db drv fileID email perm w).2).head?
        = some (.permissionsGetIdForEmail email) ∧
      (∀ temp, drv.PermissionsGetIdForEmail w.requests email = .ok temp →
        requestsOf w (SetPermission db drv fileID email perm w).2 =
          [.permissionsGetIdForEmail email,
            .permissionsUpdate fileID temp.Id ⟨email, perm, "user"⟩ none])) ∧
    (¬ (prf.Owner1 = email ∨ prf.Owner2 = email) →
      requestsOf w (SetPermission db drv fileID email perm w).2 =
        [.permissionsInsert fileID ⟨email, perm, "user"⟩ (some false)]) ∧
    ((∃ r ∈ requestsOf w (SetPermission db drv fileID email perm w).2, r.isUpdate = true) ↔
      (prf.Owner1 = email ∨ prf.Owner2 = email) ∧
        ∃ temp, drv.PermissionsGetIdForEmail w.requests email = .ok temp) ∧
    ((∃ r ∈ requestsOf w (SetPermission db drv fileID email perm w).2, r.isInsert = true) ↔
      ¬ (prf.Owner1 = email ∨ prf.Owner2 = email)) ∧
    (∀ r ∈ requestsOf w (SetPermission db drv fileID email perm w).2, ∀ p,
      r.grant = some p → p.Value = email ∧ p.Role = perm) ∧
    (∀ err, prf.Owner1 = email ∨ prf.Owner2 = email →
      drv.PermissionsGetIdForEmail w.requests email = .error err →
      requestsOf w (SetPermission db drv fileID email perm w).2
        = [.permissionsGetIdForEmail email] ∧
      (SetPermission db drv fileID email perm w).1 = some err) := by
  have hret : ∀ err, prf.Owner1 = email ∨ prf.Owner2 = email →
      drv.PermissionsGetIdForEmail w.requests email = .error err →
      (SetPermission db drv fileID email perm w).1 = some err := by
    intro err hparty hg
    unfold SetPermission
    rw [hnew]
    simp only [hdoc, hparty, hg, if_true]
  rw [SetPermission_requests db drv fileID email perm w prf hnew hdoc]
  by_cases hp : prf.Owner1 = email ∨ prf.Owner2 = email
  · rcases hg : drv.PermissionsGetIdForEmail w.requests email with err | temp
    · simp [hp, DriveRequest.isInsert, DriveRequest.isUpdate, DriveRequest.grant]
      exact hret err hp hg
    · simp [hp, DriveRequest.isInsert, DriveRequest.isUpdate, DriveRequest.grant]
  · simp [hp, DriveRequest.isInsert, DriveRequest.isUpdate, DriveRequest.grant]

/-- C9, witness: on `d1`, party A's grant is updated and a third email is inserted. -/
theorem SetPermission_updates_parties_inserts_others_witness :
    (driveFake "a@x.com" 100).New (worldAB 0 0).requests = .ok () ∧
    specStore.GetUserDoc "d1" (worldAB 0 0).records = .ok (docAB 0 0) ∧
    requestsOf (worldAB 0 0)
        (SetPermission specStore (driveFake "a@x.com" 100) "d1" "a@x.com" "reader"
          (worldAB 0 0)).2 =
      [.permissionsGetIdForEmail "a@x.com",
        .permissionsUpdate "d1" "a@x.com" ⟨"a@x.com", "reader", "user"⟩ none] ∧
    requestsOf (worldAB 0 0)
        (SetPermission specStore (driveFake "a@x.com" 100) "d1" "c@x.com" "writer"
          (worldAB 0 0)).2 =
      [.permissionsInsert "d1" ⟨"c@x.com", "writer", "user"⟩ (some false)] :=
  ⟨rfl, rfl,
    ((SetPermission_updates_parties_inserts_others specStore (driveFake "a@x.com" 100) "d1"
      "a@x.com" "reader" (worldAB 0 0) (docAB 0 0) rfl rfl).1 (Or.inl rfl)).2.2
      ⟨"a@x.com"⟩ rfl,
    (SetPermission_updates_parties_inserts_others specStore (driveFake "a@x.com" 100) "d1"
      "c@x.com" "writer" (worldAB 0 0) (docAB 0 0) rfl rfl).2.1 (by decide)⟩

/-- C10, counterexample. `SetPermission` for party A of `d1` takes the update
route, and the requests it sends do not all carry the notification flag set to
false: the update request carries no notification flag. -/
theorem update_request_carries_no_flag :
    ¬ (∀ r ∈ requestsOf (worldAB 0 0)
        (SetPermission specStore (driveFake "a@x.com" 100) "d1" "a@x.com" "reader"
          (worldAB 0 0)).2, r.notificationFlag = some false) := by
  decide

/-- C10, amended. Every insert request that `SetPermission` sends has the
notification-suppression flag set (send-notification-emails = false), and the
insert route sends exactly that one request; the requests of the update route,
the grant-id resolution and the update, carry no notification flag. -/
theorem SetPermission_insert_suppresses_notification
    {ρ : Type} (db : RecordStore ρ) (drv : Drive) (fileID email perm : String)
    (w : World ρ) :
    (∀ r ∈ requestsOf w (SetPermission db drv fileID email perm w).2,
      (r.isInsert = true → r.notificationFlag = some false) ∧
      (r.isInsert = false → r.notificationFlag = none)) ∧
    (∀ prf, drv.New w.requests = .ok () → db.GetUserDoc fileID w.records = .ok prf →
      ¬ (prf.Owner1 = email ∨ prf.Owner2 = email) →
      requestsOf w (SetPermission db drv fileID email perm w).2 =
        [.permissionsInsert fileID ⟨email, perm, "user"⟩ (some false)]) := by
  refine ⟨?_, ?_⟩
  · unfold SetPermission
    dsimp only
    repeat' split
    all_goals simp [requestsOf, DriveRequest.isInsert, DriveRequest.notificationFlag]
  · intro prf hnew hdoc hp
    rw [SetPermission_requests db drv fileID email perm w prf hnew hdoc]
    simp [hp]

/-- C10, witness: the insert sent for a third email on `d1` suppresses the
notification. -/
theorem SetPermission_insert_suppresses_notification_witness :
    (driveFake "a@x.com" 100).New (worldAB 0 0).requests = .ok () ∧
    specStore.GetUserDoc "d1" (worldAB 0 0).records = .ok (docAB 0 0) ∧
    requestsOf (worldAB 0 0)
        (SetPermission specStore (driveFake "a@x.com" 100) "d1" "c@x.com" "writer"
          (worldAB 0 0)).2 =
      [.permissionsInsert "d1" ⟨"c@x.com", "writer", "user"⟩ (some false)] :=
  ⟨rfl, rfl,
    (SetPermission_insert_suppresses_notification specStore (driveFake "a@x.com" 100) "d1"
      "c@x.com" "writer" (worldAB 0 0)).2 (docAB 0 0) rfl rfl (by decide)⟩

end AgreementApi
